import Mathlib

/-!
# gRPC auth transport adapter (`internal/grpc/auth/server.go`)

A shallow embedding of the three RPC handlers `Login`, `Register`, `IsAdmin`,
their validators, and the library calls they rely on (`status.Error`,
`status.Errorf`, `errors.Is`).  The injected `Auth` capability is an arbitrary
stateful implementation; every invocation the adapter makes is recorded in a
call log so that "how often and with which arguments" can be stated.
-/

namespace GrpcAuth

/-! ## Machine integers -/

/-- Go `int32`: an integer in the signed 32-bit range. -/
structure Int32 where
  val : Int
  lo : -2147483648 ≤ val
  hi : val ≤ 2147483647
deriving DecidableEq

/-- Go `int64`: an integer in the signed 64-bit range. -/
structure Int64 where
  val : Int
  lo : -9223372036854775808 ≤ val
  hi : val ≤ 9223372036854775807
deriving DecidableEq

/-- Two's-complement reading of `v` in `w` bits. -/
def wrapSigned (w : Nat) (v : Int) : Int :=
  (v + 2 ^ (w - 1)) % 2 ^ w - 2 ^ (w - 1)

/-- The conversion `int(x)` of an `int32` to Go's `int`, taken 64 bits wide
(the 32-bit `int` holds every `int32` as well). -/
def int (x : Int32) : Int := wrapSigned 64 x.val

/-! ## gRPC status codes and `status.Error` -/

namespace codes

/-- The status codes of `google.golang.org/grpc/codes`, in numeric order. -/
inductive Code where
  | OK
  | Canceled
  | Unknown
  | InvalidArgument
  | DeadlineExceeded
  | NotFound
  | AlreadyExists
  | PermissionDenied
  | ResourceExhausted
  | FailedPrecondition
  | Aborted
  | OutOfRange
  | Unimplemented
  | Internal
  | Unavailable
  | DataLoss
  | Unauthenticated
deriving DecidableEq, Repr

end codes

/-- A gRPC status error value: code and message. -/
structure Status where
  code : codes.Code
  message : String
deriving DecidableEq, Repr

/-- The Go `error` returned by the handlers: `nil` or a status error. -/
abbrev StatusErr := Option Status

/-- `status.Error(c, msg)`: `nil` for code `OK`, otherwise the status error. -/
def status.Error (c : codes.Code) (msg : String) : StatusErr :=
  if c = codes.Code.OK then none else some { code := c, message := msg }

/-- `status.Errorf(c, format)` without arguments; none of the formats used by
the handlers contains a verb, so the formatted message is the format. -/
def status.Errorf (c : codes.Code) (format : String) : StatusErr :=
  status.Error c format

/-! ## Errors of the capability and `errors.Is` -/

/-- Modelled from the spec: the sentinel domain errors declared in the
packages `internal/services/auth` and `internal/storage` (not part of this
file): `auth.ErrInvalidCredentials`, `storage.ErrUserExist`,
`storage.ErrUserNotFound`. -/
inductive Sentinel where
  | ErrInvalidCredentials
  | ErrUserExist
  | ErrUserNotFound
deriving DecidableEq, Repr

/-- A non-nil Go `error` value as `errors.Is` sees it: one of the sentinel
variables, some other value without an `Unwrap` method, a value wrapping one
error (`fmt.Errorf` with `%w`), or a value wrapping several (`errors.Join`).
Only a sentinel variable is identical to a sentinel; a fresh error with the
same text is an `other`.  Error types that define their own `Is` method are
not represented. -/
inductive GoError where
  | sentinel (s : Sentinel)
  | other (msg : String)
  | wrap (msg : String) (inner : GoError)
  | join (errs : List GoError)

mutual
/-- The loop of `errors.Is` on a non-nil error against a sentinel target:
identity first, then `Unwrap() error`, then depth-first over
`Unwrap() []error`. -/
def errors.is : GoError → Sentinel → Bool
  | GoError.sentinel s, target => decide (s = target)
  | GoError.other _, _ => false
  | GoError.wrap _ inner, target => errors.is inner target
  | GoError.join errs, target => errors.isAny errs target
/-- The `for _, err := range x.Unwrap()` branch of `errors.Is`. -/
def errors.isAny : List GoError → Sentinel → Bool
  | [], _ => false
  | e :: es, target => errors.is e target || errors.isAny es target
end

/-- `errors.Is(err, target)` for a possibly nil `err` and a sentinel target. -/
def errors.Is (err : Option GoError) (target : Sentinel) : Bool :=
  match err with
  | none => false
  | some e => errors.is e target

/-! ## Messages of `protos/gen/go/sso` -/

/-- Modelled from the spec: the login request of the generated package
`sso` (email, password, application identifier as `int32`). -/
structure LoginRequest where
  Email : String
  Password : String
  AppId : Int32
deriving DecidableEq

/-- Modelled from the spec: the registration request (email, password). -/
structure RegisterRequest where
  Email : String
  Password : String
deriving DecidableEq

/-- Modelled from the spec: the admin-check request (user identifier as
`int64`). -/
structure IsAdminRequest where
  UserId : Int64
deriving DecidableEq

/-- Modelled from the spec: the login response (token string). -/
structure LoginResponse where
  Token : String
deriving DecidableEq

/-- Modelled from the spec: the registration response (user identifier). -/
structure RegisterResponse where
  UserId : Int64
deriving DecidableEq

/-- Modelled from the spec: the admin-check response (boolean flag). -/
structure IsAdminResponse where
  IsAdmin : Bool
deriving DecidableEq

/-- The zero value of `int32`. -/
def Int32.zero : Int32 := ⟨0, by decide, by decide⟩

/-- The zero value of `int64`. -/
def Int64.zero : Int64 := ⟨0, by decide, by decide⟩

/-- Modelled from the spec: generated getter; a nil message yields `""`. -/
def LoginRequest.GetEmail : Option LoginRequest → String
  | some x => x.Email
  | none => ""

/-- Modelled from the spec: generated getter; a nil message yields `""`. -/
def LoginRequest.GetPassword : Option LoginRequest → String
  | some x => x.Password
  | none => ""

/-- Modelled from the spec: generated getter; a nil message yields `0`. -/
def LoginRequest.GetAppId : Option LoginRequest → Int32
  | some x => x.AppId
  | none => Int32.zero

/-- Modelled from the spec: generated getter; a nil message yields `""`. -/
def RegisterRequest.GetEmail : Option RegisterRequest → String
  | some x => x.Email
  | none => ""

/-- Modelled from the spec: generated getter; a nil message yields `""`. -/
def RegisterRequest.GetPassword : Option RegisterRequest → String
  | some x => x.Password
  | none => ""

/-- Modelled from the spec: generated getter; a nil message yields `0`. -/
def IsAdminRequest.GetUserId : Option IsAdminRequest → Int64
  | some x => x.UserId
  | none => Int64.zero

/-! ## The capability and the call log -/

/-- A `context.Context` value; the adapter only forwards it. -/
structure Context where
  id : Nat
deriving DecidableEq, Repr

/-- One invocation of a method of the `Auth` interface with its arguments. -/
inductive Call where
  | Login (ctx : Context) (email : String) (password : String) (appID : Int)
  | RegisterNewUser (ctx : Context) (email : String) (password : String)
  | IsAdmin (ctx : Context) (userID : Int64)
deriving DecidableEq

/-- The `Auth` interface: an implementation with its own state `σ`; each
method returns both result values of the Go signature and the next state. -/
structure Auth (σ : Type) where
  Login : Context → String → String → Int → σ → (String × Option GoError) × σ
  RegisterNewUser : Context → String → String → σ → (Int64 × Option GoError) × σ
  IsAdmin : Context → Int64 → σ → (Bool × Option GoError) × σ

/-- The state a handler runs in: the implementation's state and the log of
calls made on the capability so far (oldest first). -/
structure World (σ : Type) where
  impl : σ
  calls : List Call

/-- The `serverAPI` struct: the injected capability. -/
structure serverAPI (σ : Type) where
  auth : Auth σ

/-- `s.auth.Login(ctx, email, password, appID)`, logged. -/
def serverAPI.callLogin {σ : Type} (s : serverAPI σ) (ctx : Context) (email password : String)
    (appID : Int) (w : World σ) : (String × Option GoError) × World σ :=
  let r := s.auth.Login ctx email password appID w.impl
  (r.1, { impl := r.2, calls := w.calls ++ [Call.Login ctx email password appID] })

/-- `s.auth.RegisterNewUser(ctx, email, password)`, logged. -/
def serverAPI.callRegisterNewUser {σ : Type} (s : serverAPI σ) (ctx : Context)
    (email password : String) (w : World σ) : (Int64 × Option GoError) × World σ :=
  let r := s.auth.RegisterNewUser ctx email password w.impl
  (r.1, { impl := r.2, calls := w.calls ++ [Call.RegisterNewUser ctx email password] })

/-- `s.auth.IsAdmin(ctx, userID)`, logged. -/
def serverAPI.callIsAdmin {σ : Type} (s : serverAPI σ) (ctx : Context) (userID : Int64)
    (w : World σ) : (Bool × Option GoError) × World σ :=
  let r := s.auth.IsAdmin ctx userID w.impl
  (r.1, { impl := r.2, calls := w.calls ++ [Call.IsAdmin ctx userID] })

/-! ## `server.go` -/

/-- The constant `emptyID`. -/
def emptyID : Int := 0

/-- The constant `emptyValue`. -/
def emptyValue : String := ""

/-- `validateLogin`. -/
def validateLogin (req : Option LoginRequest) : StatusErr :=
  if LoginRequest.GetEmail req = emptyValue then
    status.Error codes.Code.InvalidArgument "email is required"
  else if LoginRequest.GetPassword req = emptyValue then
    status.Error codes.Code.InvalidArgument "password is required"
  else if (LoginRequest.GetAppId req).val = emptyID then
    status.Error codes.Code.InvalidArgument "app_id is required"
  else
    none

/-- `validateRegister`. -/
def validateRegister (req : Option RegisterRequest) : StatusErr :=
  if RegisterRequest.GetEmail req = emptyValue then
    status.Error codes.Code.InvalidArgument "email is required"
  else if RegisterRequest.GetPassword req = emptyValue then
    status.Error codes.Code.InvalidArgument "password is required"
  else
    none

/-- `validateIsAdmin`. -/
def validateIsAdmin (req : Option IsAdminRequest) : StatusErr :=
  if (IsAdminRequest.GetUserId req).val = emptyID then
    status.Error codes.Code.InvalidArgument "user_id is required"
  else
    none

/-- `(*serverAPI).Login`: the pair `(response, error)` and the world after. -/
def serverAPI.Login {σ : Type} (s : serverAPI σ) (ctx : Context) (req : Option LoginRequest)
    (w : World σ) : (Option LoginResponse × StatusErr) × World σ :=
  match validateLogin req with
  | some err => ((none, some err), w)
  | none =>
    let r := s.callLogin ctx (LoginRequest.GetEmail req) (LoginRequest.GetPassword req)
      (int (LoginRequest.GetAppId req)) w
    match r.1.2 with
    | some err =>
      if errors.Is (some err) Sentinel.ErrInvalidCredentials then
        ((none, status.Errorf codes.Code.InvalidArgument "invalid credentials"), r.2)
      else
        ((none, status.Error codes.Code.Internal "internal error"), r.2)
    | none => ((some { Token := r.1.1 }, none), r.2)

/-- `(*serverAPI).Register`: the pair `(response, error)` and the world after. -/
def serverAPI.Register {σ : Type} (s : serverAPI σ) (ctx : Context)
    (req : Option RegisterRequest) (w : World σ) :
    (Option RegisterResponse × StatusErr) × World σ :=
  match validateRegister req with
  | some err => ((none, some err), w)
  | none =>
    let r := s.callRegisterNewUser ctx (RegisterRequest.GetEmail req)
      (RegisterRequest.GetPassword req) w
    match r.1.2 with
    | some err =>
      if errors.Is (some err) Sentinel.ErrUserExist then
        ((none, status.Errorf codes.Code.AlreadyExists "user already exists"), r.2)
      else
        ((none, status.Error codes.Code.Internal "internal error"), r.2)
    | none => ((some { UserId := r.1.1 }, none), r.2)

/-- `(*serverAPI).IsAdmin`: the pair `(response, error)` and the world after. -/
def serverAPI.IsAdmin {σ : Type} (s : serverAPI σ) (ctx : Context)
    (req : Option IsAdminRequest) (w : World σ) :
    (Option IsAdminResponse × StatusErr) × World σ :=
  match validateIsAdmin req with
  | some err => ((none, some err), w)
  | none =>
    let r := s.callIsAdmin ctx (IsAdminRequest.GetUserId req) w
    match r.1.2 with
    | some err =>
      if errors.Is (some err) Sentinel.ErrUserNotFound then
        ((none, status.Errorf codes.Code.NotFound "user not found"), r.2)
      else
        ((none, status.Error codes.Code.Internal "internal error"), r.2)
    | none => ((some { IsAdmin := r.1.1 }, none), r.2)

/-! ## Wrap chains and sample implementations -/

/-- The sentinel `t` occurs in the wrap chain of `e`: `e` is the sentinel
variable itself, or wraps (singly or as one of several) an error whose chain
contains it. -/
inductive Wraps : GoError → Sentinel → Prop where
  | self (t : Sentinel) : Wraps (GoError.sentinel t) t
  | wrap (msg : String) (inner : GoError) (t : Sentinel) :
      Wraps inner t → Wraps (GoError.wrap msg inner) t
  | join (errs : List GoError) (e : GoError) (t : Sentinel) :
      e ∈ errs → Wraps e t → Wraps (GoError.join errs) t

/-- A request passes `validateLogin`'s three presence checks. -/
def LoginPresent (req : Option LoginRequest) : Prop :=
  LoginRequest.GetEmail req ≠ "" ∧ LoginRequest.GetPassword req ≠ "" ∧
    (LoginRequest.GetAppId req).val ≠ 0

/-- A request passes `validateRegister`'s two presence checks. -/
def RegisterPresent (req : Option RegisterRequest) : Prop :=
  RegisterRequest.GetEmail req ≠ "" ∧ RegisterRequest.GetPassword req ≠ ""

/-- A request passes `validateIsAdmin`'s presence check. -/
def IsAdminPresent (req : Option IsAdminRequest) : Prop :=
  (IsAdminRequest.GetUserId req).val ≠ 0

instance (req : Option LoginRequest) : Decidable (LoginPresent req) := by
  unfold LoginPresent
  infer_instance

instance (req : Option RegisterRequest) : Decidable (RegisterPresent req) := by
  unfold RegisterPresent
  infer_instance

instance (req : Option IsAdminRequest) : Decidable (IsAdminPresent req) := by
  unfold IsAdminPresent
  infer_instance

/-- A sample capability with a call counter as state, in the style of a
service that wraps storage errors with the operation name. -/
def sampleAuth : Auth Nat where
  Login := fun _ email password appID n =>
    if email = "down@example.com" then
      (("", some (GoError.other "connection refused")), n + 1)
    else if appID = 99 then
      (("", some (GoError.wrap "auth.Login" (GoError.sentinel Sentinel.ErrUserNotFound))), n + 1)
    else if password = "secret" then
      (("token-for-" ++ email, none), n + 1)
    else
      (("", some (GoError.wrap "auth.Login" (GoError.sentinel Sentinel.ErrInvalidCredentials))),
        n + 1)
  RegisterNewUser := fun _ email _ n =>
    if email = "down@example.com" then
      ((Int64.zero, some (GoError.other "connection refused")), n + 1)
    else if email = "taken@example.com" then
      ((Int64.zero,
        some (GoError.wrap "auth.RegisterNewUser" (GoError.sentinel Sentinel.ErrUserExist))),
        n + 1)
    else
      ((⟨-7, by decide, by decide⟩, none), n + 1)
  IsAdmin := fun _ userID n =>
    if userID.val = 500 then
      ((false, some (GoError.other "connection refused")), n + 1)
    else if userID.val = 404 then
      ((false, some (GoError.wrap "auth.IsAdmin" (GoError.sentinel Sentinel.ErrUserNotFound))),
        n + 1)
    else
      ((decide (userID.val = 1), none), n + 1)

/-- The server built on `sampleAuth`. -/
def sampleServer : serverAPI Nat := { auth := sampleAuth }

/-- A capability that fails every call with the bare sentinel of the RPC. -/
def bareAuth : Auth Nat where
  Login := fun _ _ _ _ n =>
    (("", some (GoError.sentinel Sentinel.ErrInvalidCredentials)), n + 1)
  RegisterNewUser := fun _ _ _ n =>
    ((Int64.zero, some (GoError.sentinel Sentinel.ErrUserExist)), n + 1)
  IsAdmin := fun _ _ n =>
    ((false, some (GoError.sentinel Sentinel.ErrUserNotFound)), n + 1)

/-- The server built on `bareAuth`. -/
def bareServer : serverAPI Nat := { auth := bareAuth }

/-- A sample context. -/
def ctx0 : Context := { id := 1 }

/-- A fresh world: counter at zero, nothing logged. -/
def w0 : World Nat := { impl := 0, calls := [] }

/-- A negative application identifier. -/
def negApp : Int32 := ⟨-3, by decide, by decide⟩

/-- The application identifier 99. -/
def app99 : Int32 := ⟨99, by decide, by decide⟩

/-- A negative user identifier. -/
def negUser : Int64 := ⟨-5, by decide, by decide⟩

/-- The user identifier 404. -/
def user404 : Int64 := ⟨404, by decide, by decide⟩

/-- A capability that fails every call with the error `e`. -/
def failingAuth (e : GoError) : Auth Nat where
  Login := fun _ _ _ _ n => (("", some e), n + 1)
  RegisterNewUser := fun _ _ _ n => ((Int64.zero, some e), n + 1)
  IsAdmin := fun _ _ n => ((false, some e), n + 1)

/-- The server built on `failingAuth e`. -/
def failingServer (e : GoError) : serverAPI Nat := { auth := failingAuth e }

/-- Login with the right password and a negative application identifier. -/
def loginGood : Option LoginRequest := some ⟨"a@b.c", "secret", negApp⟩

/-- Login with a wrong password. -/
def loginWrongPw : Option LoginRequest := some ⟨"a@b.c", "wrong", negApp⟩

/-- Login for application 99, which `sampleAuth` does not know. -/
def loginApp99 : Option LoginRequest := some ⟨"a@b.c", "secret", app99⟩

/-- Login whose email and password are blanks only. -/
def loginBlank : Option LoginRequest := some ⟨" ", " ", negApp⟩

/-- Login without an email. -/
def loginNoEmail : Option LoginRequest := some ⟨"", "secret", negApp⟩

/-- Registration of a fresh address. -/
def registerGood : Option RegisterRequest := some ⟨"new@example.com", " "⟩

/-- Registration of an address already present. -/
def registerTaken : Option RegisterRequest := some ⟨"taken@example.com", "pw"⟩

/-- Registration while the storage is down. -/
def registerDown : Option RegisterRequest := some ⟨"down@example.com", "pw"⟩

/-- Registration without a password. -/
def registerNoPw : Option RegisterRequest := some ⟨"new@example.com", ""⟩

/-- Admin check of a negative user identifier. -/
def isAdminNeg : Option IsAdminRequest := some ⟨negUser⟩

/-- Admin check of the missing user 404. -/
def isAdmin404 : Option IsAdminRequest := some ⟨user404⟩

/-- Admin check without a user identifier. -/
def isAdminZero : Option IsAdminRequest := some ⟨Int64.zero⟩

/-! ## Basic facts -/

theorem int_eq_val (x : Int32) : int x = x.val := by
  have h1 := x.lo
  have h2 := x.hi
  unfold int wrapSigned
  omega

theorem validateLogin_of_present {req : Option LoginRequest} (h : LoginPresent req) :
    validateLogin req = none := by
  obtain ⟨h1, h2, h3⟩ := h
  simp [validateLogin, emptyValue, emptyID, h1, h2, h3]

theorem validateRegister_of_present {req : Option RegisterRequest} (h : RegisterPresent req) :
    validateRegister req = none := by
  obtain ⟨h1, h2⟩ := h
  simp [validateRegister, emptyValue, h1, h2]

theorem validateIsAdmin_of_present {req : Option IsAdminRequest} (h : IsAdminPresent req) :
    validateIsAdmin req = none := by
  have h1 : (IsAdminRequest.GetUserId req).val ≠ 0 := h
  simp [validateIsAdmin, emptyID, h1]

theorem validateLogin_cases (req : Option LoginRequest) :
    (LoginRequest.GetEmail req = "" ∧
      validateLogin req = some ⟨codes.Code.InvalidArgument, "email is required"⟩) ∨
    (LoginRequest.GetEmail req ≠ "" ∧ LoginRequest.GetPassword req = "" ∧
      validateLogin req = some ⟨codes.Code.InvalidArgument, "password is required"⟩) ∨
    (LoginRequest.GetEmail req ≠ "" ∧ LoginRequest.GetPassword req ≠ "" ∧
      (LoginRequest.GetAppId req).val = 0 ∧
      validateLogin req = some ⟨codes.Code.InvalidArgument, "app_id is required"⟩) ∨
    (LoginPresent req ∧ validateLogin req = none) := by
  by_cases h1 : LoginRequest.GetEmail req = ""
  · left
    simp [validateLogin, emptyValue, status.Error, h1]
  · by_cases h2 : LoginRequest.GetPassword req = ""
    · right; left
      simp [validateLogin, emptyValue, status.Error, h1, h2]
    · by_cases h3 : (LoginRequest.GetAppId req).val = 0
      · right; right; left
        simp [validateLogin, emptyValue, emptyID, status.Error, h1, h2, h3]
      · right; right; right
        exact ⟨⟨h1, h2, h3⟩, validateLogin_of_present ⟨h1, h2, h3⟩⟩

theorem validateRegister_cases (req : Option RegisterRequest) :
    (RegisterRequest.GetEmail req = "" ∧
      validateRegister req = some ⟨codes.Code.InvalidArgument, "email is required"⟩) ∨
    (RegisterRequest.GetEmail req ≠ "" ∧ RegisterRequest.GetPassword req = "" ∧
      validateRegister req = some ⟨codes.Code.InvalidArgument, "password is required"⟩) ∨
    (RegisterPresent req ∧ validateRegister req = none) := by
  by_cases h1 : RegisterRequest.GetEmail req = ""
  · left
    simp [validateRegister, emptyValue, status.Error, h1]
  · by_cases h2 : RegisterRequest.GetPassword req = ""
    · right; left
      simp [validateRegister, emptyValue, status.Error, h1, h2]
    · right; right
      exact ⟨⟨h1, h2⟩, validateRegister_of_present ⟨h1, h2⟩⟩

theorem validateIsAdmin_cases (req : Option IsAdminRequest) :
    ((IsAdminRequest.GetUserId req).val = 0 ∧
      validateIsAdmin req = some ⟨codes.Code.InvalidArgument, "user_id is required"⟩) ∨
    (IsAdminPresent req ∧ validateIsAdmin req = none) := by
  by_cases h1 : (IsAdminRequest.GetUserId req).val = 0
  · left
    simp [validateIsAdmin, emptyID, status.Error, h1]
  · right
    exact ⟨h1, validateIsAdmin_of_present h1⟩

theorem Login_of_invalid {σ : Type} (s : serverAPI σ) (ctx : Context)
    (req : Option LoginRequest) (w : World σ) (st : Status)
    (h : validateLogin req = some st) : s.Login ctx req w = ((none, some st), w) := by
  simp [serverAPI.Login, h]

theorem Register_of_invalid {σ : Type} (s : serverAPI σ) (ctx : Context)
    (req : Option RegisterRequest) (w : World σ) (st : Status)
    (h : validateRegister req = some st) : s.Register ctx req w = ((none, some st), w) := by
  simp [serverAPI.Register, h]

theorem IsAdmin_of_invalid {σ : Type} (s : serverAPI σ) (ctx : Context)
    (req : Option IsAdminRequest) (w : World σ) (st : Status)
    (h : validateIsAdmin req = some st) : s.IsAdmin ctx req w = ((none, some st), w) := by
  simp [serverAPI.IsAdmin, h]

/-- What `Login` does once validation has passed, by the capability's result. -/
theorem Login_of_present {σ : Type} (s : serverAPI σ) (ctx : Context)
    (req : Option LoginRequest) (w : World σ) (h : LoginPresent req) :
    s.Login ctx req w =
      (let r := s.auth.Login ctx (LoginRequest.GetEmail req) (LoginRequest.GetPassword req)
          (LoginRequest.GetAppId req).val w.impl
       let w1 : World σ := { impl := r.2, calls := w.calls ++
          [Call.Login ctx (LoginRequest.GetEmail req) (LoginRequest.GetPassword req)
            (LoginRequest.GetAppId req).val] }
       match r.1.2 with
       | some e =>
         if errors.is e Sentinel.ErrInvalidCredentials then
           ((none, some ⟨codes.Code.InvalidArgument, "invalid credentials"⟩), w1)
         else ((none, some ⟨codes.Code.Internal, "internal error"⟩), w1)
       | none => ((some ⟨r.1.1⟩, none), w1)) := by
  simp only [serverAPI.Login, validateLogin_of_present h, serverAPI.callLogin, int_eq_val,
    errors.Is, status.Errorf, status.Error]
  rfl

/-- What `Register` does once validation has passed. -/
theorem Register_of_present {σ : Type} (s : serverAPI σ) (ctx : Context)
    (req : Option RegisterRequest) (w : World σ) (h : RegisterPresent req) :
    s.Register ctx req w =
      (let r := s.auth.RegisterNewUser ctx (RegisterRequest.GetEmail req)
          (RegisterRequest.GetPassword req) w.impl
       let w1 : World σ := { impl := r.2, calls := w.calls ++
          [Call.RegisterNewUser ctx (RegisterRequest.GetEmail req)
            (RegisterRequest.GetPassword req)] }
       match r.1.2 with
       | some e =>
         if errors.is e Sentinel.ErrUserExist then
           ((none, some ⟨codes.Code.AlreadyExists, "user already exists"⟩), w1)
         else ((none, some ⟨codes.Code.Internal, "internal error"⟩), w1)
       | none => ((some ⟨r.1.1⟩, none), w1)) := by
  simp only [serverAPI.Register, validateRegister_of_present h, serverAPI.callRegisterNewUser,
    errors.Is, status.Errorf, status.Error]
  rfl

/-- What `IsAdmin` does once validation has passed. -/
theorem IsAdmin_of_present {σ : Type} (s : serverAPI σ) (ctx : Context)
    (req : Option IsAdminRequest) (w : World σ) (h : IsAdminPresent req) :
    s.IsAdmin ctx req w =
      (let r := s.auth.IsAdmin ctx (IsAdminRequest.GetUserId req) w.impl
       let w1 : World σ := { impl := r.2, calls := w.calls ++
          [Call.IsAdmin ctx (IsAdminRequest.GetUserId req)] }
       match r.1.2 with
       | some e =>
         if errors.is e Sentinel.ErrUserNotFound then
           ((none, some ⟨codes.Code.NotFound, "user not found"⟩), w1)
         else ((none, some ⟨codes.Code.Internal, "internal error"⟩), w1)
       | none => ((some ⟨r.1.1⟩, none), w1)) := by
  simp only [serverAPI.IsAdmin, validateIsAdmin_of_present h, serverAPI.callIsAdmin,
    errors.Is, status.Errorf, status.Error]
  rfl

theorem isAny_of_mem {t : Sentinel} {e : GoError} :
    ∀ {errs : List GoError}, e ∈ errs → errors.is e t = true → errors.isAny errs t = true := by
  intro errs
  induction errs with
  | nil => intro h; cases h
  | cons x xs ih =>
    intro h he
    rcases List.mem_cons.mp h with rfl | h
    · simp [errors.isAny, he]
    · simp [errors.isAny, ih h he]

theorem is_of_wraps {e : GoError} {t : Sentinel} (h : Wraps e t) : errors.is e t = true := by
  induction h with
  | self t => simp [errors.is]
  | wrap msg inner t _ ih => simpa [errors.is] using ih
  | join errs e t hmem _ ih => simpa [errors.is] using isAny_of_mem hmem ih

/-! ## Validation -/

/-- C1: a request missing a required field gets a nil response and an
`InvalidArgument` status, and the capability is not invoked: the world (the
implementation's state and the call log) is returned as it was.  Login: empty
email, empty password or app id 0; Register: empty email or password;
IsAdmin: user id 0. -/
theorem missing_field_rejected_without_call {σ : Type} (s : serverAPI σ) (ctx : Context)
    (w : World σ) :
    (∀ req : Option LoginRequest,
      (LoginRequest.GetEmail req = "" ∨ LoginRequest.GetPassword req = "" ∨
        (LoginRequest.GetAppId req).val = 0) →
      ∃ msg, (s.Login ctx req w).1 = (none, some ⟨codes.Code.InvalidArgument, msg⟩) ∧
        (s.Login ctx req w).2 = w) ∧
    (∀ req : Option RegisterRequest,
      (RegisterRequest.GetEmail req = "" ∨ RegisterRequest.GetPassword req = "") →
      ∃ msg, (s.Register ctx req w).1 = (none, some ⟨codes.Code.InvalidArgument, msg⟩) ∧
        (s.Register ctx req w).2 = w) ∧
    (∀ req : Option IsAdminRequest,
      (IsAdminRequest.GetUserId req).val = 0 →
      ∃ msg, (s.IsAdmin ctx req w).1 = (none, some ⟨codes.Code.InvalidArgument, msg⟩) ∧
        (s.IsAdmin ctx req w).2 = w) := by
  refine ⟨?_, ?_, ?_⟩
  · intro req hmiss
    rcases validateLogin_cases req with ⟨_, hv⟩ | ⟨_, _, hv⟩ | ⟨_, _, _, hv⟩ | ⟨hp, _⟩
    · exact ⟨_, by rw [Login_of_invalid s ctx req w _ hv], by rw [Login_of_invalid s ctx req w _ hv]⟩
    · exact ⟨_, by rw [Login_of_invalid s ctx req w _ hv], by rw [Login_of_invalid s ctx req w _ hv]⟩
    · exact ⟨_, by rw [Login_of_invalid s ctx req w _ hv], by rw [Login_of_invalid s ctx req w _ hv]⟩
    · obtain ⟨h1, h2, h3⟩ := hp
      rcases hmiss with h | h | h
      · exact absurd h h1
      · exact absurd h h2
      · exact absurd h h3
  · intro req hmiss
    rcases validateRegister_cases req with ⟨_, hv⟩ | ⟨_, _, hv⟩ | ⟨hp, _⟩
    · exact ⟨_, by rw [Register_of_invalid s ctx req w _ hv],
        by rw [Register_of_invalid s ctx req w _ hv]⟩
    · exact ⟨_, by rw [Register_of_invalid s ctx req w _ hv],
        by rw [Register_of_invalid s ctx req w _ hv]⟩
    · obtain ⟨h1, h2⟩ := hp
      rcases hmiss with h | h
      · exact absurd h h1
      · exact absurd h h2
  · intro req hmiss
    rcases validateIsAdmin_cases req with ⟨_, hv⟩ | ⟨hp, _⟩
    · exact ⟨_, by rw [IsAdmin_of_invalid s ctx req w _ hv],
        by rw [IsAdmin_of_invalid s ctx req w _ hv]⟩
    · exact absurd hmiss hp

/-- Witness for C1: a login without email, a registration without password and
an admin check of user 0, on the sample server. -/
theorem missing_field_rejected_without_call_witness :
    (∃ msg, (sampleServer.Login ctx0 loginNoEmail w0).1 =
        (none, some ⟨codes.Code.InvalidArgument, msg⟩) ∧
      (sampleServer.Login ctx0 loginNoEmail w0).2 = w0) ∧
    (∃ msg, (sampleServer.Register ctx0 registerNoPw w0).1 =
        (none, some ⟨codes.Code.InvalidArgument, msg⟩) ∧
      (sampleServer.Register ctx0 registerNoPw w0).2 = w0) ∧
    (∃ msg, (sampleServer.IsAdmin ctx0 isAdminZero w0).1 =
        (none, some ⟨codes.Code.InvalidArgument, msg⟩) ∧
      (sampleServer.IsAdmin ctx0 isAdminZero w0).2 = w0) :=
  ⟨(missing_field_rejected_without_call sampleServer ctx0 w0).1 loginNoEmail (Or.inl rfl),
   (missing_field_rejected_without_call sampleServer ctx0 w0).2.1 registerNoPw (Or.inr rfl),
   (missing_field_rejected_without_call sampleServer ctx0 w0).2.2 isAdminZero rfl⟩

/-! ## Mapping of the capability's errors -/

/-- C2, as stated, fails: on a valid login, `sampleAuth` answers a wrong
password with an error that wraps `ErrInvalidCredentials`.  That error is not
the sentinel itself, yet the adapter answers `InvalidArgument`
"invalid credentials" and not `Internal`. -/
theorem Login_other_error_not_internal :
    LoginPresent loginWrongPw ∧
    (sampleAuth.Login ctx0 (LoginRequest.GetEmail loginWrongPw)
        (LoginRequest.GetPassword loginWrongPw) (int (LoginRequest.GetAppId loginWrongPw))
        w0.impl).1 =
      ("", some (GoError.wrap "auth.Login" (GoError.sentinel Sentinel.ErrInvalidCredentials))) ∧
    GoError.wrap "auth.Login" (GoError.sentinel Sentinel.ErrInvalidCredentials) ≠
      GoError.sentinel Sentinel.ErrInvalidCredentials ∧
    (sampleServer.Login ctx0 loginWrongPw w0).1 =
      (none, some ⟨codes.Code.InvalidArgument, "invalid credentials"⟩) ∧
    ¬ ∃ st, (sampleServer.Login ctx0 loginWrongPw w0).1 = (none, some st) ∧
      st.code = codes.Code.Internal := by
  refine ⟨by decide, rfl, ?_, rfl, ?_⟩
  · intro h
    cases h
  · rintro ⟨st, h1, h2⟩
    have h3 : (sampleServer.Login ctx0 loginWrongPw w0).1 =
        (none, some ⟨codes.Code.InvalidArgument, "invalid credentials"⟩) := rfl
    rw [h3] at h1
    injection h1 with _ h4
    injection h4 with h5
    rw [← h5] at h2
    cases h2

/-- C2, amended: on a valid login for which the capability returns the error
`e`, the adapter returns a nil response and `InvalidArgument`
"invalid credentials" when `e` is `ErrInvalidCredentials` or wraps it
(`errors.Is`), and a nil response and `Internal` "internal error" when
`errors.Is` does not match, in particular for the other domain sentinels. -/
theorem Login_error_mapping {σ : Type} (s : serverAPI σ) (ctx : Context)
    (req : Option LoginRequest) (w : World σ) (tok : String) (e : GoError)
    (hv : LoginPresent req)
    (hcap : (s.auth.Login ctx (LoginRequest.GetEmail req) (LoginRequest.GetPassword req)
      (int (LoginRequest.GetAppId req)) w.impl).1 = (tok, some e)) :
    (e = GoError.sentinel Sentinel.ErrInvalidCredentials →
      (s.Login ctx req w).1 = (none, some ⟨codes.Code.InvalidArgument, "invalid credentials"⟩)) ∧
    (errors.Is (some e) Sentinel.ErrInvalidCredentials = true →
      (s.Login ctx req w).1 = (none, some ⟨codes.Code.InvalidArgument, "invalid credentials"⟩)) ∧
    (errors.Is (some e) Sentinel.ErrInvalidCredentials = false →
      (s.Login ctx req w).1 = (none, some ⟨codes.Code.Internal, "internal error"⟩)) ∧
    ((e = GoError.sentinel Sentinel.ErrUserNotFound ∨ e = GoError.sentinel Sentinel.ErrUserExist) →
      (s.Login ctx req w).1 = (none, some ⟨codes.Code.Internal, "internal error"⟩)) := by
  rw [int_eq_val] at hcap
  have key : (s.Login ctx req w).1 =
      if errors.is e Sentinel.ErrInvalidCredentials then
        (none, some ⟨codes.Code.InvalidArgument, "invalid credentials"⟩)
      else (none, some ⟨codes.Code.Internal, "internal error"⟩) := by
    rw [Login_of_present s ctx req w hv]
    simp only [hcap]
    split <;> rfl
  refine ⟨?_, ?_, ?_, ?_⟩
  · intro h
    rw [key, h]
    rfl
  · intro h
    rw [key]
    simp only [errors.Is] at h
    simp [h]
  · intro h
    rw [key]
    simp only [errors.Is] at h
    simp [h]
  · intro h
    rw [key]
    rcases h with h | h <;> rw [h] <;> rfl

/-- Witness for C2 (amended): the wrong-password login on the sample server. -/
theorem Login_error_mapping_witness :
    LoginPresent loginWrongPw ∧
    errors.Is (some (GoError.wrap "auth.Login" (GoError.sentinel Sentinel.ErrInvalidCredentials)))
      Sentinel.ErrInvalidCredentials = true ∧
    (sampleServer.Login ctx0 loginWrongPw w0).1 =
      (none, some ⟨codes.Code.InvalidArgument, "invalid credentials"⟩) :=
  ⟨by decide, rfl,
   (Login_error_mapping sampleServer ctx0 loginWrongPw w0 ""
      (GoError.wrap "auth.Login" (GoError.sentinel Sentinel.ErrInvalidCredentials))
      (by decide) rfl).2.1 rfl⟩

/-- C3, as stated, fails: on a valid registration of a taken address,
`sampleAuth` returns an error that wraps `ErrUserExist`.  That error is not
the sentinel itself, yet the adapter answers `AlreadyExists` and not
`Internal`. -/
theorem Register_other_error_not_internal :
    RegisterPresent registerTaken ∧
    (sampleAuth.RegisterNewUser ctx0 (RegisterRequest.GetEmail registerTaken)
        (RegisterRequest.GetPassword registerTaken) w0.impl).1 =
      (Int64.zero,
        some (GoError.wrap "auth.RegisterNewUser" (GoError.sentinel Sentinel.ErrUserExist))) ∧
    GoError.wrap "auth.RegisterNewUser" (GoError.sentinel Sentinel.ErrUserExist) ≠
      GoError.sentinel Sentinel.ErrUserExist ∧
    (sampleServer.Register ctx0 registerTaken w0).1 =
      (none, some ⟨codes.Code.AlreadyExists, "user already exists"⟩) ∧
    ¬ ∃ st, (sampleServer.Register ctx0 registerTaken w0).1 = (none, some st) ∧
      st.code = codes.Code.Internal := by
  refine ⟨by decide, rfl, ?_, rfl, ?_⟩
  · intro h
    cases h
  · rintro ⟨st, h1, h2⟩
    have h3 : (sampleServer.Register ctx0 registerTaken w0).1 =
        (none, some ⟨codes.Code.AlreadyExists, "user already exists"⟩) := rfl
    rw [h3] at h1
    injection h1 with _ h4
    injection h4 with h5
    rw [← h5] at h2
    cases h2

/-- C3, amended: on a valid registration for which the capability returns the
error `e`, the adapter returns a nil response and `AlreadyExists`
"user already exists" when `e` is `ErrUserExist` or wraps it (`errors.Is`),
and a nil response and `Internal` "internal error" when `errors.Is` does not
match. -/
theorem Register_error_mapping {σ : Type} (s : serverAPI σ) (ctx : Context)
    (req : Option RegisterRequest) (w : World σ) (uid : Int64) (e : GoError)
    (hv : RegisterPresent req)
    (hcap : (s.auth.RegisterNewUser ctx (RegisterRequest.GetEmail req)
      (RegisterRequest.GetPassword req) w.impl).1 = (uid, some e)) :
    (e = GoError.sentinel Sentinel.ErrUserExist →
      (s.Register ctx req w).1 =
        (none, some ⟨codes.Code.AlreadyExists, "user already exists"⟩)) ∧
    (errors.Is (some e) Sentinel.ErrUserExist = true →
      (s.Register ctx req w).1 =
        (none, some ⟨codes.Code.AlreadyExists, "user already exists"⟩)) ∧
    (errors.Is (some e) Sentinel.ErrUserExist = false →
      (s.Register ctx req w).1 = (none, some ⟨codes.Code.Internal, "internal error"⟩)) := by
  have key : (s.Register ctx req w).1 =
      if errors.is e Sentinel.ErrUserExist then
        (none, some ⟨codes.Code.AlreadyExists, "user already exists"⟩)
      else (none, some ⟨codes.Code.Internal, "internal error"⟩) := by
    rw [Register_of_present s ctx req w hv]
    simp only [hcap]
    split <;> rfl
  refine ⟨?_, ?_, ?_⟩
  · intro h
    rw [key, h]
    rfl
  · intro h
    rw [key]
    simp only [errors.Is] at h
    simp [h]
  · intro h
    rw [key]
    simp only [errors.Is] at h
    simp [h]

/-- Witness for C3 (amended): registration while the storage is down, on the
sample server. -/
theorem Register_error_mapping_witness :
    RegisterPresent registerDown ∧
    errors.Is (some (GoError.other "connection refused")) Sentinel.ErrUserExist = false ∧
    (sampleServer.Register ctx0 registerDown w0).1 =
      (none, some ⟨codes.Code.Internal, "internal error"⟩) :=
  ⟨by decide, rfl,
   (Register_error_mapping sampleServer ctx0 registerDown w0 Int64.zero
      (GoError.other "connection refused") (by decide) rfl).2.2 rfl⟩

/-- C4, as stated, fails: on a valid admin check of user 404, `sampleAuth`
returns an error that wraps `ErrUserNotFound`.  That error is not the
sentinel itself, yet the adapter answers `NotFound` and not `Internal`. -/
theorem IsAdmin_other_error_not_internal :
    IsAdminPresent isAdmin404 ∧
    (sampleAuth.IsAdmin ctx0 (IsAdminRequest.GetUserId isAdmin404) w0.impl).1 =
      (false, some (GoError.wrap "auth.IsAdmin" (GoError.sentinel Sentinel.ErrUserNotFound))) ∧
    GoError.wrap "auth.IsAdmin" (GoError.sentinel Sentinel.ErrUserNotFound) ≠
      GoError.sentinel Sentinel.ErrUserNotFound ∧
    (sampleServer.IsAdmin ctx0 isAdmin404 w0).1 =
      (none, some ⟨codes.Code.NotFound, "user not found"⟩) ∧
    ¬ ∃ st, (sampleServer.IsAdmin ctx0 isAdmin404 w0).1 = (none, some st) ∧
      st.code = codes.Code.Internal := by
  refine ⟨by decide, rfl, ?_, rfl, ?_⟩
  · intro h
    cases h
  · rintro ⟨st, h1, h2⟩
    have h3 : (sampleServer.IsAdmin ctx0 isAdmin404 w0).1 =
        (none, some ⟨codes.Code.NotFound, "user not found"⟩) := rfl
    rw [h3] at h1
    injection h1 with _ h4
    injection h4 with h5
    rw [← h5] at h2
    cases h2

/-- C4, amended: on a valid admin check for which the capability returns the
error `e`, the adapter returns a nil response and `NotFound` "user not found"
when `e` is `ErrUserNotFound` or wraps it (`errors.Is`), and a nil response
and `Internal` "internal error" when `errors.Is` does not match. -/
theorem IsAdmin_error_mapping {σ : Type} (s : serverAPI σ) (ctx : Context)
    (req : Option IsAdminRequest) (w : World σ) (b : Bool) (e : GoError)
    (hv : IsAdminPresent req)
    (hcap : (s.auth.IsAdmin ctx (IsAdminRequest.GetUserId req) w.impl).1 = (b, some e)) :
    (e = GoError.sentinel Sentinel.ErrUserNotFound →
      (s.IsAdmin ctx req w).1 = (none, some ⟨codes.Code.NotFound, "user not found"⟩)) ∧
    (errors.Is (some e) Sentinel.ErrUserNotFound = true →
      (s.IsAdmin ctx req w).1 = (none, some ⟨codes.Code.NotFound, "user not found"⟩)) ∧
    (errors.Is (some e) Sentinel.ErrUserNotFound = false →
      (s.IsAdmin ctx req w).1 = (none, some ⟨codes.Code.Internal, "internal error"⟩)) := by
  have key : (s.IsAdmin ctx req w).1 =
      if errors.is e Sentinel.ErrUserNotFound then
        (none, some ⟨codes.Code.NotFound, "user not found"⟩)
      else (none, some ⟨codes.Code.Internal, "internal error"⟩) := by
    rw [IsAdmin_of_present s ctx req w hv]
    simp only [hcap]
    split <;> rfl
  refine ⟨?_, ?_, ?_⟩
  · intro h
    rw [key, h]
    rfl
  · intro h
    rw [key]
    simp only [errors.Is] at h
    simp [h]
  · intro h
    rw [key]
    simp only [errors.Is] at h
    simp [h]

/-- Witness for C4 (amended): the bare sentinel on an admin check of a
negative user id. -/
theorem IsAdmin_error_mapping_witness :
    IsAdminPresent isAdminNeg ∧
    (bareServer.IsAdmin ctx0 isAdminNeg w0).1 =
      (none, some ⟨codes.Code.NotFound, "user not found"⟩) :=
  ⟨by decide,
   (IsAdmin_error_mapping bareServer ctx0 isAdminNeg w0 false
      (GoError.sentinel Sentinel.ErrUserNotFound) (by decide) rfl).1 rfl⟩

/-! ## Success, uniform failures, result shape -/

/-- C5: when the request passes validation and the capability returns a nil
error, the adapter returns `(response, nil)` whose field is the capability's
value unchanged: the token string for Login, the `int64` user id for
Register, the boolean for IsAdmin, whatever that value is. -/
theorem success_passes_value_through {σ : Type} (s : serverAPI σ) (ctx : Context)
    (w : World σ) :
    (∀ (req : Option LoginRequest) (tok : String), LoginPresent req →
      (s.auth.Login ctx (LoginRequest.GetEmail req) (LoginRequest.GetPassword req)
        (int (LoginRequest.GetAppId req)) w.impl).1 = (tok, none) →
      (s.Login ctx req w).1 = (some { Token := tok }, none)) ∧
    (∀ (req : Option RegisterRequest) (uid : Int64), RegisterPresent req →
      (s.auth.RegisterNewUser ctx (RegisterRequest.GetEmail req)
        (RegisterRequest.GetPassword req) w.impl).1 = (uid, none) →
      (s.Register ctx req w).1 = (some { UserId := uid }, none)) ∧
    (∀ (req : Option IsAdminRequest) (b : Bool), IsAdminPresent req →
      (s.auth.IsAdmin ctx (IsAdminRequest.GetUserId req) w.impl).1 = (b, none) →
      (s.IsAdmin ctx req w).1 = (some { IsAdmin := b }, none)) := by
  refine ⟨?_, ?_, ?_⟩
  · intro req tok hv hcap
    rw [int_eq_val] at hcap
    rw [Login_of_present s ctx req w hv]
    simp only [hcap]
  · intro req uid hv hcap
    rw [Register_of_present s ctx req w hv]
    simp only [hcap]
  · intro req b hv hcap
    rw [IsAdmin_of_present s ctx req w hv]
    simp only [hcap]

/-- Witness for C5: a login, a registration returning the negative id -7 and
an admin check answering `false`, on the sample server. -/
theorem success_passes_value_through_witness :
    (LoginPresent loginGood ∧
      (sampleServer.Login ctx0 loginGood w0).1 = (some { Token := "token-for-a@b.c" }, none)) ∧
    (RegisterPresent registerGood ∧
      (sampleServer.Register ctx0 registerGood w0).1 =
        (some { UserId := ⟨-7, by decide, by decide⟩ }, none)) ∧
    (IsAdminPresent isAdminNeg ∧
      (sampleServer.IsAdmin ctx0 isAdminNeg w0).1 = (some { IsAdmin := false }, none)) :=
  ⟨⟨by decide, (success_passes_value_through sampleServer ctx0 w0).1 loginGood
      "token-for-a@b.c" (by decide) rfl⟩,
   ⟨by decide, (success_passes_value_through sampleServer ctx0 w0).2.1 registerGood
      ⟨-7, by decide, by decide⟩ (by decide) rfl⟩,
   ⟨by decide, (success_passes_value_through sampleServer ctx0 w0).2.2 isAdminNeg
      false (by decide) rfl⟩⟩

/-- C6: for each RPC, two capabilities (of any kind, in any state) that answer
the same valid request with errors `e₁`, `e₂` that `errors.Is` does not match
to the RPC's sentinel get identical results from the adapter: a nil response
and the status `Internal` "internal error".  Neither code nor message depends
on the errors. -/
theorem unrecognized_errors_indistinguishable {σ₁ σ₂ : Type} (s₁ : serverAPI σ₁)
    (s₂ : serverAPI σ₂) (ctx : Context) (w₁ : World σ₁) (w₂ : World σ₂) (e₁ e₂ : GoError) :
    (∀ (req : Option LoginRequest) (t₁ t₂ : String), LoginPresent req →
      (s₁.auth.Login ctx (LoginRequest.GetEmail req) (LoginRequest.GetPassword req)
        (int (LoginRequest.GetAppId req)) w₁.impl).1 = (t₁, some e₁) →
      (s₂.auth.Login ctx (LoginRequest.GetEmail req) (LoginRequest.GetPassword req)
        (int (LoginRequest.GetAppId req)) w₂.impl).1 = (t₂, some e₂) →
      errors.Is (some e₁) Sentinel.ErrInvalidCredentials = false →
      errors.Is (some e₂) Sentinel.ErrInvalidCredentials = false →
      (s₁.Login ctx req w₁).1 = (s₂.Login ctx req w₂).1 ∧
      (s₁.Login ctx req w₁).1 = (none, some ⟨codes.Code.Internal, "internal error"⟩)) ∧
    (∀ (req : Option RegisterRequest) (u₁ u₂ : Int64), RegisterPresent req →
      (s₁.auth.RegisterNewUser ctx (RegisterRequest.GetEmail req)
        (RegisterRequest.GetPassword req) w₁.impl).1 = (u₁, some e₁) →
      (s₂.auth.RegisterNewUser ctx (RegisterRequest.GetEmail req)
        (RegisterRequest.GetPassword req) w₂.impl).1 = (u₂, some e₂) →
      errors.Is (some e₁) Sentinel.ErrUserExist = false →
      errors.Is (some e₂) Sentinel.ErrUserExist = false →
      (s₁.Register ctx req w₁).1 = (s₂.Register ctx req w₂).1 ∧
      (s₁.Register ctx req w₁).1 = (none, some ⟨codes.Code.Internal, "internal error"⟩)) ∧
    (∀ (req : Option IsAdminRequest) (b₁ b₂ : Bool), IsAdminPresent req →
      (s₁.auth.IsAdmin ctx (IsAdminRequest.GetUserId req) w₁.impl).1 = (b₁, some e₁) →
      (s₂.auth.IsAdmin ctx (IsAdminRequest.GetUserId req) w₂.impl).1 = (b₂, some e₂) →
      errors.Is (some e₁) Sentinel.ErrUserNotFound = false →
      errors.Is (some e₂) Sentinel.ErrUserNotFound = false →
      (s₁.IsAdmin ctx req w₁).1 = (s₂.IsAdmin ctx req w₂).1 ∧
      (s₁.IsAdmin ctx req w₁).1 = (none, some ⟨codes.Code.Internal, "internal error"⟩)) := by
  refine ⟨?_, ?_, ?_⟩
  · intro req t₁ t₂ hv h₁ h₂ n₁ n₂
    rw [int_eq_val] at h₁ h₂
    simp only [errors.Is] at n₁ n₂
    rw [Login_of_present s₁ ctx req w₁ hv, Login_of_present s₂ ctx req w₂ hv]
    simp [h₁, h₂, n₁, n₂]
  · intro req u₁ u₂ hv h₁ h₂ n₁ n₂
    simp only [errors.Is] at n₁ n₂
    rw [Register_of_present s₁ ctx req w₁ hv, Register_of_present s₂ ctx req w₂ hv]
    simp [h₁, h₂, n₁, n₂]
  · intro req b₁ b₂ hv h₁ h₂ n₁ n₂
    simp only [errors.Is] at n₁ n₂
    rw [IsAdmin_of_present s₁ ctx req w₁ hv, IsAdmin_of_present s₂ ctx req w₂ hv]
    simp [h₁, h₂, n₁, n₂]

/-- Witness for C6: the sample server, which answers application 99 with a
wrapped `ErrUserNotFound`, against a server failing with a plain error. -/
theorem unrecognized_errors_indistinguishable_witness :
    LoginPresent loginApp99 ∧
    (sampleServer.Login ctx0 loginApp99 w0).1 =
      ((failingServer (GoError.other "disk full")).Login ctx0 loginApp99 w0).1 ∧
    (sampleServer.Login ctx0 loginApp99 w0).1 =
      (none, some ⟨codes.Code.Internal, "internal error"⟩) :=
  ⟨by decide,
   (unrecognized_errors_indistinguishable sampleServer (failingServer (GoError.other "disk full"))
      ctx0 w0 w0 (GoError.wrap "auth.Login" (GoError.sentinel Sentinel.ErrUserNotFound))
      (GoError.other "disk full")).1 loginApp99 "" "" (by decide) rfl rfl rfl rfl⟩

/-- C7: each RPC returns exactly one of a response and an error, and the
error's code is one of the stated ones.  Login: `(response, nil)` or
`(nil, error)` with code `InvalidArgument` or `Internal`; Register: the same
with `AlreadyExists` added; IsAdmin: the same with `NotFound` added. -/
theorem result_shape_and_codes {σ : Type} (s : serverAPI σ) (ctx : Context) (w : World σ) :
    (∀ req : Option LoginRequest,
      (∃ r, (s.Login ctx req w).1 = (some r, none)) ∨
      (∃ st, (s.Login ctx req w).1 = (none, some st) ∧
        (st.code = codes.Code.InvalidArgument ∨ st.code = codes.Code.Internal))) ∧
    (∀ req : Option RegisterRequest,
      (∃ r, (s.Register ctx req w).1 = (some r, none)) ∨
      (∃ st, (s.Register ctx req w).1 = (none, some st) ∧
        (st.code = codes.Code.InvalidArgument ∨ st.code = codes.Code.AlreadyExists ∨
          st.code = codes.Code.Internal))) ∧
    (∀ req : Option IsAdminRequest,
      (∃ r, (s.IsAdmin ctx req w).1 = (some r, none)) ∨
      (∃ st, (s.IsAdmin ctx req w).1 = (none, some st) ∧
        (st.code = codes.Code.InvalidArgument ∨ st.code = codes.Code.NotFound ∨
          st.code = codes.Code.Internal))) := by
  refine ⟨?_, ?_, ?_⟩
  · intro req
    rcases validateLogin_cases req with ⟨_, hv⟩ | ⟨_, _, hv⟩ | ⟨_, _, _, hv⟩ | ⟨hp, _⟩
    · exact Or.inr ⟨_, by rw [Login_of_invalid s ctx req w _ hv], Or.inl rfl⟩
    · exact Or.inr ⟨_, by rw [Login_of_invalid s ctx req w _ hv], Or.inl rfl⟩
    · exact Or.inr ⟨_, by rw [Login_of_invalid s ctx req w _ hv], Or.inl rfl⟩
    · rw [Login_of_present s ctx req w hp]
      simp only
      split
      · split
        · exact Or.inr ⟨_, rfl, Or.inl rfl⟩
        · exact Or.inr ⟨_, rfl, Or.inr rfl⟩
      · exact Or.inl ⟨_, rfl⟩
  · intro req
    rcases validateRegister_cases req with ⟨_, hv⟩ | ⟨_, _, hv⟩ | ⟨hp, _⟩
    · exact Or.inr ⟨_, by rw [Register_of_invalid s ctx req w _ hv], Or.inl rfl⟩
    · exact Or.inr ⟨_, by rw [Register_of_invalid s ctx req w _ hv], Or.inl rfl⟩
    · rw [Register_of_present s ctx req w hp]
      simp only
      split
      · split
        · exact Or.inr ⟨_, rfl, Or.inr (Or.inl rfl)⟩
        · exact Or.inr ⟨_, rfl, Or.inr (Or.inr rfl)⟩
      · exact Or.inl ⟨_, rfl⟩
  · intro req
    rcases validateIsAdmin_cases req with ⟨_, hv⟩ | ⟨hp, _⟩
    · exact Or.inr ⟨_, by rw [IsAdmin_of_invalid s ctx req w _ hv], Or.inl rfl⟩
    · rw [IsAdmin_of_present s ctx req w hp]
      simp only
      split
      · split
        · exact Or.inr ⟨_, rfl, Or.inr (Or.inl rfl)⟩
        · exact Or.inr ⟨_, rfl, Or.inr (Or.inr rfl)⟩
      · exact Or.inl ⟨_, rfl⟩

/-! ## Delegation, wrap chains, order of validation -/

/-- C8: validation passes exactly when every required field is present
(non-empty email and password, non-zero id; nothing else is inspected), and a
request that passes is delegated exactly once: the call log grows by the one
call with the request's context, email and password unaltered and the app id
with its numeric value (resp. the same user id), and the implementation's
state is its state after that single call. -/
theorem valid_request_delegated_once {σ : Type} (s : serverAPI σ) (ctx : Context)
    (w : World σ) :
    (∀ req : Option LoginRequest,
      (validateLogin req = none ↔ LoginPresent req) ∧
      (LoginPresent req →
        (s.Login ctx req w).2.calls = w.calls ++
          [Call.Login ctx (LoginRequest.GetEmail req) (LoginRequest.GetPassword req)
            (LoginRequest.GetAppId req).val] ∧
        (s.Login ctx req w).2.impl =
          (s.auth.Login ctx (LoginRequest.GetEmail req) (LoginRequest.GetPassword req)
            (LoginRequest.GetAppId req).val w.impl).2)) ∧
    (∀ req : Option RegisterRequest,
      (validateRegister req = none ↔ RegisterPresent req) ∧
      (RegisterPresent req →
        (s.Register ctx req w).2.calls = w.calls ++
          [Call.RegisterNewUser ctx (RegisterRequest.GetEmail req)
            (RegisterRequest.GetPassword req)] ∧
        (s.Register ctx req w).2.impl =
          (s.auth.RegisterNewUser ctx (RegisterRequest.GetEmail req)
            (RegisterRequest.GetPassword req) w.impl).2)) ∧
    (∀ req : Option IsAdminRequest,
      (validateIsAdmin req = none ↔ IsAdminPresent req) ∧
      (IsAdminPresent req →
        (s.IsAdmin ctx req w).2.calls = w.calls ++
          [Call.IsAdmin ctx (IsAdminRequest.GetUserId req)] ∧
        (s.IsAdmin ctx req w).2.impl =
          (s.auth.IsAdmin ctx (IsAdminRequest.GetUserId req) w.impl).2)) := by
  refine ⟨?_, ?_, ?_⟩
  · intro req
    refine ⟨⟨?_, validateLogin_of_present⟩, ?_⟩
    · intro hn
      rcases validateLogin_cases req with ⟨_, hv⟩ | ⟨_, _, hv⟩ | ⟨_, _, _, hv⟩ | ⟨hp, _⟩
      · rw [hn] at hv; cases hv
      · rw [hn] at hv; cases hv
      · rw [hn] at hv; cases hv
      · exact hp
    · intro hp
      rw [Login_of_present s ctx req w hp]
      simp only
      constructor <;> (split <;> [split; skip]) <;> rfl
  · intro req
    refine ⟨⟨?_, validateRegister_of_present⟩, ?_⟩
    · intro hn
      rcases validateRegister_cases req with ⟨_, hv⟩ | ⟨_, _, hv⟩ | ⟨hp, _⟩
      · rw [hn] at hv; cases hv
      · rw [hn] at hv; cases hv
      · exact hp
    · intro hp
      rw [Register_of_present s ctx req w hp]
      simp only
      constructor <;> (split <;> [split; skip]) <;> rfl
  · intro req
    refine ⟨⟨?_, validateIsAdmin_of_present⟩, ?_⟩
    · intro hn
      rcases validateIsAdmin_cases req with ⟨_, hv⟩ | ⟨hp, _⟩
      · rw [hn] at hv; cases hv
      · exact hp
    · intro hp
      rw [IsAdmin_of_present s ctx req w hp]
      simp only
      constructor <;> (split <;> [split; skip]) <;> rfl

/-- Witness for C8: a login whose strings are blanks and whose app id is -3,
a registration with a blank password and an admin check of user -5, each
logged once on the sample server. -/
theorem valid_request_delegated_once_witness :
    (LoginPresent loginBlank ∧
      (sampleServer.Login ctx0 loginBlank w0).2.calls = [Call.Login ctx0 " " " " (-3)] ∧
      (sampleServer.Login ctx0 loginBlank w0).2.impl = 1) ∧
    (RegisterPresent registerGood ∧
      (sampleServer.Register ctx0 registerGood w0).2.calls =
        [Call.RegisterNewUser ctx0 "new@example.com" " "] ∧
      (sampleServer.Register ctx0 registerGood w0).2.impl = 1) ∧
    (IsAdminPresent isAdminNeg ∧
      (sampleServer.IsAdmin ctx0 isAdminNeg w0).2.calls = [Call.IsAdmin ctx0 negUser] ∧
      (sampleServer.IsAdmin ctx0 isAdminNeg w0).2.impl = 1) :=
  ⟨⟨by decide, ((valid_request_delegated_once sampleServer ctx0 w0).1 loginBlank).2 (by decide)⟩,
   ⟨by decide,
    ((valid_request_delegated_once sampleServer ctx0 w0).2.1 registerGood).2 (by decide)⟩,
   ⟨by decide,
    ((valid_request_delegated_once sampleServer ctx0 w0).2.2 isAdminNeg).2 (by decide)⟩⟩

/-- C9: the capability's error is matched through its wrap chain.  On a valid
request, when the capability returns an error whose chain contains the RPC's
sentinel at any depth, the adapter's result is the one it gives a capability
that returns the bare sentinel: `InvalidArgument` "invalid credentials" for
Login, `AlreadyExists` "user already exists" for Register, `NotFound`
"user not found" for IsAdmin, and so never `Internal`. -/
theorem wrapped_sentinel_recognized {σ₁ σ₂ : Type} (s₁ : serverAPI σ₁) (s₂ : serverAPI σ₂)
    (ctx : Context) (w₁ : World σ₁) (w₂ : World σ₂) (e : GoError) :
    (∀ (req : Option LoginRequest) (t₁ t₂ : String), LoginPresent req →
      Wraps e Sentinel.ErrInvalidCredentials →
      (s₁.auth.Login ctx (LoginRequest.GetEmail req) (LoginRequest.GetPassword req)
        (int (LoginRequest.GetAppId req)) w₁.impl).1 = (t₁, some e) →
      (s₂.auth.Login ctx (LoginRequest.GetEmail req) (LoginRequest.GetPassword req)
        (int (LoginRequest.GetAppId req)) w₂.impl).1 =
          (t₂, some (GoError.sentinel Sentinel.ErrInvalidCredentials)) →
      (s₁.Login ctx req w₁).1 = (s₂.Login ctx req w₂).1 ∧
      (s₁.Login ctx req w₁).1 =
        (none, some ⟨codes.Code.InvalidArgument, "invalid credentials"⟩)) ∧
    (∀ (req : Option RegisterRequest) (u₁ u₂ : Int64), RegisterPresent req →
      Wraps e Sentinel.ErrUserExist →
      (s₁.auth.RegisterNewUser ctx (RegisterRequest.GetEmail req)
        (RegisterRequest.GetPassword req) w₁.impl).1 = (u₁, some e) →
      (s₂.auth.RegisterNewUser ctx (RegisterRequest.GetEmail req)
        (RegisterRequest.GetPassword req) w₂.impl).1 =
          (u₂, some (GoError.sentinel Sentinel.ErrUserExist)) →
      (s₁.Register ctx req w₁).1 = (s₂.Register ctx req w₂).1 ∧
      (s₁.Register ctx req w₁).1 =
        (none, some ⟨codes.Code.AlreadyExists, "user already exists"⟩)) ∧
    (∀ (req : Option IsAdminRequest) (b₁ b₂ : Bool), IsAdminPresent req →
      Wraps e Sentinel.ErrUserNotFound →
      (s₁.auth.IsAdmin ctx (IsAdminRequest.GetUserId req) w₁.impl).1 = (b₁, some e) →
      (s₂.auth.IsAdmin ctx (IsAdminRequest.GetUserId req) w₂.impl).1 =
          (b₂, some (GoError.sentinel Sentinel.ErrUserNotFound)) →
      (s₁.IsAdmin ctx req w₁).1 = (s₂.IsAdmin ctx req w₂).1 ∧
      (s₁.IsAdmin ctx req w₁).1 = (none, some ⟨codes.Code.NotFound, "user not found"⟩)) := by
  refine ⟨?_, ?_, ?_⟩
  · intro req t₁ t₂ hv hw h₁ h₂
    rw [int_eq_val] at h₁ h₂
    have hi := is_of_wraps hw
    rw [Login_of_present s₁ ctx req w₁ hv, Login_of_present s₂ ctx req w₂ hv]
    simp [h₁, h₂, hi, errors.is]
  · intro req u₁ u₂ hv hw h₁ h₂
    have hi := is_of_wraps hw
    rw [Register_of_present s₁ ctx req w₁ hv, Register_of_present s₂ ctx req w₂ hv]
    simp [h₁, h₂, hi, errors.is]
  · intro req b₁ b₂ hv hw h₁ h₂
    have hi := is_of_wraps hw
    rw [IsAdmin_of_present s₁ ctx req w₁ hv, IsAdmin_of_present s₂ ctx req w₂ hv]
    simp [h₁, h₂, hi, errors.is]

/-- Witness for C9: the sentinel two levels deep, the inner level being one of
two joined errors, against the bare sentinel. -/
theorem wrapped_sentinel_recognized_witness :
    RegisterPresent registerGood ∧
    Wraps (GoError.wrap "handler" (GoError.join [GoError.other "audit log failed",
      GoError.wrap "storage.SaveUser" (GoError.sentinel Sentinel.ErrUserExist)]))
      Sentinel.ErrUserExist ∧
    ((failingServer (GoError.wrap "handler" (GoError.join [GoError.other "audit log failed",
        GoError.wrap "storage.SaveUser" (GoError.sentinel Sentinel.ErrUserExist)]))).Register
        ctx0 registerGood w0).1 = (bareServer.Register ctx0 registerGood w0).1 ∧
    ((failingServer (GoError.wrap "handler" (GoError.join [GoError.other "audit log failed",
        GoError.wrap "storage.SaveUser" (GoError.sentinel Sentinel.ErrUserExist)]))).Register
        ctx0 registerGood w0).1 =
      (none, some ⟨codes.Code.AlreadyExists, "user already exists"⟩) :=
  have hw : Wraps (GoError.wrap "handler" (GoError.join [GoError.other "audit log failed",
      GoError.wrap "storage.SaveUser" (GoError.sentinel Sentinel.ErrUserExist)]))
      Sentinel.ErrUserExist :=
    Wraps.wrap _ _ _ (Wraps.join _ _ _ (List.mem_cons_of_mem _ (List.mem_singleton.mpr rfl))
      (Wraps.wrap _ _ _ (Wraps.self _)))
  ⟨by decide, hw,
   (wrapped_sentinel_recognized (failingServer _) bareServer ctx0 w0 w0 _).2.1 registerGood
      Int64.zero Int64.zero (by decide) hw rfl rfl⟩

/-- C10: validation reports the first missing field in a fixed order.
`validateLogin` answers "email is required" exactly when the email is empty,
"password is required" exactly when the email is present and the password
empty, "app_id is required" exactly when both are present and the app id is
0, and nil exactly when all three are present; `validateRegister` does the
same for email then password; `validateIsAdmin` answers
"user_id is required" exactly when the user id is 0.  Every such answer has
code `InvalidArgument`. -/
theorem validation_order :
    (∀ req : Option LoginRequest,
      (validateLogin req = some ⟨codes.Code.InvalidArgument, "email is required"⟩ ↔
        LoginRequest.GetEmail req = "") ∧
      (validateLogin req = some ⟨codes.Code.InvalidArgument, "password is required"⟩ ↔
        LoginRequest.GetEmail req ≠ "" ∧ LoginRequest.GetPassword req = "") ∧
      (validateLogin req = some ⟨codes.Code.InvalidArgument, "app_id is required"⟩ ↔
        LoginRequest.GetEmail req ≠ "" ∧ LoginRequest.GetPassword req ≠ "" ∧
          (LoginRequest.GetAppId req).val = 0) ∧
      (validateLogin req = none ↔
        LoginRequest.GetEmail req ≠ "" ∧ LoginRequest.GetPassword req ≠ "" ∧
          (LoginRequest.GetAppId req).val ≠ 0)) ∧
    (∀ req : Option RegisterRequest,
      (validateRegister req = some ⟨codes.Code.InvalidArgument, "email is required"⟩ ↔
        RegisterRequest.GetEmail req = "") ∧
      (validateRegister req = some ⟨codes.Code.InvalidArgument, "password is required"⟩ ↔
        RegisterRequest.GetEmail req ≠ "" ∧ RegisterRequest.GetPassword req = "") ∧
      (validateRegister req = none ↔
        RegisterRequest.GetEmail req ≠ "" ∧ RegisterRequest.GetPassword req ≠ "")) ∧
    (∀ req : Option IsAdminRequest,
      (validateIsAdmin req = some ⟨codes.Code.InvalidArgument, "user_id is required"⟩ ↔
        (IsAdminRequest.GetUserId req).val = 0) ∧
      (validateIsAdmin req = none ↔ (IsAdminRequest.GetUserId req).val ≠ 0)) := by
  refine ⟨?_, ?_, ?_⟩
  · intro req
    rcases validateLogin_cases req with ⟨h1, hv⟩ | ⟨h1, h2, hv⟩ | ⟨h1, h2, h3, hv⟩ |
      ⟨⟨h1, h2, h3⟩, hv⟩
    · rw [hv]; simp [h1]
    · rw [hv]; simp [h1, h2]
    · rw [hv]; simp [h1, h2, h3]
    · rw [hv]; simp [h1, h2, h3]
  · intro req
    rcases validateRegister_cases req with ⟨h1, hv⟩ | ⟨h1, h2, hv⟩ | ⟨⟨h1, h2⟩, hv⟩
    · rw [hv]; simp [h1]
    · rw [hv]; simp [h1, h2]
    · rw [hv]; simp [h1, h2]
  · intro req
    rcases validateIsAdmin_cases req with ⟨h1, hv⟩ | ⟨h1, hv⟩
    · rw [hv]; simp [h1]
    · have h2 : (IsAdminRequest.GetUserId req).val ≠ 0 := h1
      rw [hv]; simp [h2]

end GrpcAuth
